import Mathlib

/-!
Shallow embedding of the uniform-palace business-management code: the
mongoose schema methods (Product.updateStock, Order.calculateTotals,
Order.addItem, Order.updatePayment, Inquiry.updateStatus,
Inquiry.convertToCustomer, Inquiry.generateInquiryNumber) and the route
handlers for inquiry conversion, inquiry deletion and order deletion.
JavaScript numbers that hold money or stock are modelled as integers,
timestamps as natural numbers, Mongo ObjectId references as natural
numbers, and fields that may be undefined as Option values.  JavaScript
truthiness on strings (the empty string is falsy) and on numbers (zero is
falsy) is made explicit through the truthy functions below.
-/

namespace UniformPalace

/-- JavaScript truthiness of a possibly missing string field: undefined and
the empty string are falsy. -/
def truthyStr : Option String → Bool
  | none => false
  | some s => !(s == "")

/-- JavaScript truthiness of a possibly missing numeric field: undefined and
zero are falsy. -/
def truthyNat : Option Nat → Bool
  | none => false
  | some n => !(n == 0)

/-- JavaScript truthiness of a possibly missing ObjectId reference: any
present id object is truthy. -/
def truthyId : Option Nat → Bool
  | none => false
  | some _ => true

/-- Nested address subdocument shared by customerSchema and inquirySchema
(src/unnamed/part_000 lines 26-35, src/models/Inquiry.js lines 43-52). -/
structure Address where
  street : Option String
  city : Option String
  state : Option String
  pincode : Option String
  country : Option String
deriving DecidableEq

/-- Product document, restricted to the fields the claims touch
(src/unnamed/part_000 lines 235-416): the Mongo id, the unique code and
the stock quantity.  stockQuantity is a JavaScript number, modelled as an
integer; the schema declares min 0 on it. -/
structure Product where
  id : Nat
  code : String
  stockQuantity : Int
deriving DecidableEq

/-- Embeds productSchema.methods.updateStock (src/unnamed/part_000 lines
438-445): decrease floors the stock at zero, increase adds
unconditionally, any other operation string leaves the document
unchanged. -/
def Product.updateStock (p : Product) (quantity : Int) (operation : String) : Product :=
  if operation = "decrease" then
    { p with stockQuantity := max 0 (p.stockQuantity - quantity) }
  else if operation = "increase" then
    { p with stockQuantity := p.stockQuantity + quantity }
  else
    p

/-- A sequence of updateStock calls, each given as an operation string
paired with a quantity, applied in order. -/
def Product.applyStockOps (p : Product) (ops : List (String × Int)) : Product :=
  ops.foldl (fun q op => q.updateStock op.2 op.1) p

theorem updateStock_decrease (p : Product) (q : Int) :
    p.updateStock q "decrease" = { p with stockQuantity := max 0 (p.stockQuantity - q) } := rfl

theorem updateStock_increase (p : Product) (q : Int) :
    p.updateStock q "increase" = { p with stockQuantity := p.stockQuantity + q } := rfl

theorem applyStockOps_nonneg (p : Product) (ops : List (String × Int))
    (hq : ∀ op ∈ ops, op.1 = "increase" → 0 ≤ op.2)
    (h0 : 0 ≤ p.stockQuantity) :
    0 ≤ (p.applyStockOps ops).stockQuantity := by
  induction ops generalizing p with
  | nil => exact h0
  | cons op rest ih =>
      have hstep : 0 ≤ (p.updateStock op.2 op.1).stockQuantity := by
        unfold Product.updateStock
        by_cases hd : op.1 = "decrease"
        · simp [hd]
        · by_cases hi : op.1 = "increase"
          · have := hq op (List.mem_cons_self _ _) hi
            simp [hd, hi]
            omega
          · simp [hd, hi, h0]
      exact ih _ (fun o ho h => hq o (List.mem_cons_of_mem _ ho) h) hstep

/-- C5: updateStock with operation decrease sets the stock to
max(0, stock - quantity), with operation increase it adds the quantity
unconditionally, and along any sequence of updateStock calls whose
increase quantities are nonnegative the stock stays nonnegative. -/
theorem claim5_stock_floor (p : Product) (q : Int) (ops : List (String × Int))
    (hq : ∀ op ∈ ops, op.1 = "increase" → 0 ≤ op.2)
    (h0 : 0 ≤ p.stockQuantity) :
    (p.updateStock q "decrease").stockQuantity = max 0 (p.stockQuantity - q) ∧
    (p.updateStock q "increase").stockQuantity = p.stockQuantity + q ∧
    0 ≤ (p.applyStockOps ops).stockQuantity :=
  ⟨rfl, rfl, applyStockOps_nonneg p ops hq h0⟩

/-- Witness for C5 at a concrete product and operation sequence. -/
theorem claim5_stock_floor_witness :
    (0 ≤ (Product.mk 1 "UNI-001" 10).stockQuantity) ∧
    ((Product.mk 1 "UNI-001" 10).updateStock 25 "decrease").stockQuantity =
      max 0 ((10 : Int) - 25) ∧
    ((Product.mk 1 "UNI-001" 10).updateStock 25 "increase").stockQuantity = 10 + 25 ∧
    0 ≤ ((Product.mk 1 "UNI-001" 10).applyStockOps
          [("decrease", 25), ("increase", 7), ("decrease", 3)]).stockQuantity := by
  refine ⟨by decide, ?_⟩
  have h := claim5_stock_floor (Product.mk 1 "UNI-001" 10) 25
      [("decrease", 25), ("increase", 7), ("decrease", 3)]
      (by decide) (by decide)
  exact h

/-- Line item of an Order (src/models/Inquiry.js lines 414-445), restricted
to the fields the claims touch.  quantity and unitPrice are JavaScript
numbers, modelled as integers. -/
structure OrderItem where
  product : Nat
  productName : String
  quantity : Int
  unitPrice : Int
  totalPrice : Int
deriving DecidableEq

/-- Item data handed to Order.addItem by the add-item route: the route
builds it without a totalPrice, which addItem computes. -/
structure OrderItemInput where
  product : Nat
  productName : String
  quantity : Int
  unitPrice : Int
deriving DecidableEq

/-- Order document, restricted to the fields the claims touch
(src/models/Inquiry.js lines 384-583): status, line items, the pricing
block and the payment block. -/
structure Order where
  orderNumber : String
  status : String
  items : List OrderItem
  subtotal : Int
  tax : Int
  discount : Int
  shippingCost : Int
  totalAmount : Int
  paidAmount : Int
  paymentStatus : String
deriving DecidableEq

/-- Embeds orderSchema.methods.calculateTotals (src/models/Inquiry.js lines
643-652): subtotal is recomputed as the left fold of the line item totals
starting from zero, and totalAmount as subtotal + tax + shippingCost -
discount.  The items field of the embedding is always a list, which is the
array branch of the source guard. -/
def Order.calculateTotals (o : Order) : Order :=
  let subtotal := o.items.foldl (fun s it => s + it.totalPrice) 0
  { o with
    subtotal := subtotal
    totalAmount := subtotal + o.tax + o.shippingCost - o.discount }

/-- Embeds orderSchema.methods.addItem (src/models/Inquiry.js lines
655-666): the appended item carries totalPrice = quantity * unitPrice and
calculateTotals runs afterwards. -/
def Order.addItem (o : Order) (d : OrderItemInput) : Order :=
  Order.calculateTotals
    { o with
      items := o.items ++
        [{ product := d.product
           productName := d.productName
           quantity := d.quantity
           unitPrice := d.unitPrice
           totalPrice := d.quantity * d.unitPrice }] }

/-- Embeds orderSchema.methods.updatePayment (src/models/Inquiry.js lines
669-677): paidAmount grows by the amount; the status becomes paid when
paidAmount reaches totalAmount, partial when paidAmount is positive but
below totalAmount, and is otherwise left at its previous value (the source
has no else branch). -/
def Order.updatePayment (o : Order) (amount : Int) : Order :=
  let paid := o.paidAmount + amount
  { o with
    paidAmount := paid
    paymentStatus :=
      if paid ≥ o.totalAmount then "paid"
      else if paid > 0 then "partial"
      else o.paymentStatus }

/-- A sequence of updatePayment calls applied in order. -/
def Order.applyPayments (o : Order) (amounts : List Int) : Order :=
  amounts.foldl Order.updatePayment o

/-- The payment status derivation rule stated by the specification. -/
def paymentDerivationOk (o : Order) : Prop :=
  (o.paymentStatus = "paid" ↔ o.paidAmount ≥ o.totalAmount) ∧
  (o.paymentStatus = "partial" ↔ 0 < o.paidAmount ∧ o.paidAmount < o.totalAmount) ∧
  (o.paymentStatus = "pending" ↔
    ¬ o.paidAmount ≥ o.totalAmount ∧ ¬ (0 < o.paidAmount ∧ o.paidAmount < o.totalAmount))

theorem updatePayment_paidAmount (o : Order) (a : Int) :
    (o.updatePayment a).paidAmount = o.paidAmount + a := rfl

theorem updatePayment_totalAmount (o : Order) (a : Int) :
    (o.updatePayment a).totalAmount = o.totalAmount := rfl

theorem updatePayment_derivation_step (o : Order) (a : Int)
    (h0 : 0 ≤ o.paidAmount) (ha : 0 < a) :
    paymentDerivationOk (o.updatePayment a) := by
  have hp : 0 < o.paidAmount + a := by omega
  have hpaid : (o.updatePayment a).paidAmount = o.paidAmount + a := rfl
  have htot : (o.updatePayment a).totalAmount = o.totalAmount := rfl
  have hst : (o.updatePayment a).paymentStatus =
      (if o.paidAmount + a ≥ o.totalAmount then "paid"
       else if o.paidAmount + a > 0 then "partial"
       else o.paymentStatus) := rfl
  by_cases h1 : o.paidAmount + a ≥ o.totalAmount
  · rw [if_pos h1] at hst
    refine ⟨?_, ?_, ?_⟩ <;> rw [hst, hpaid, htot]
    · exact ⟨fun _ => h1, fun _ => rfl⟩
    · exact ⟨fun hc => absurd hc (by decide),
             fun hc => absurd hc.2 (not_lt.mpr h1)⟩
    · exact ⟨fun hc => absurd hc (by decide), fun hc => absurd h1 hc.1⟩
  · rw [if_neg h1, if_pos hp] at hst
    refine ⟨?_, ?_, ?_⟩ <;> rw [hst, hpaid, htot]
    · exact ⟨fun hc => absurd hc (by decide), fun hc => absurd hc h1⟩
    · exact ⟨fun _ => ⟨hp, not_le.mp h1⟩, fun _ => rfl⟩
    · exact ⟨fun hc => absurd hc (by decide),
             fun hc => absurd ⟨hp, not_le.mp h1⟩ hc.2⟩

theorem applyPayments_derivation (o : Order) (amounts : List Int)
    (hpos : ∀ a ∈ amounts, 0 < a) (h0 : 0 ≤ o.paidAmount) (hne : amounts ≠ []) :
    paymentDerivationOk (o.applyPayments amounts) := by
  induction amounts generalizing o with
  | nil => exact absurd rfl hne
  | cons a rest ih =>
      have ha : 0 < a := hpos a (List.mem_cons_self _ _)
      have hstep : Order.applyPayments o (a :: rest) =
          Order.applyPayments (o.updatePayment a) rest := rfl
      rw [hstep]
      cases rest with
      | nil => exact updatePayment_derivation_step o a h0 ha
      | cons b more =>
          apply ih (o.updatePayment a)
            (fun x hx => hpos x (List.mem_cons_of_mem _ hx))
          · rw [updatePayment_paidAmount]; omega
          · simp

/-- C7: starting from any order with a nonnegative paid amount, every
nonempty sequence of updatePayment calls with positive amounts (the only
amounts the payment route admits) leaves the payment status agreeing with
the derivation rule: paid iff paidAmount is at least totalAmount, partial
iff paidAmount is strictly between zero and totalAmount, pending
otherwise. -/
theorem claim7_payment_status_derivation (o : Order) (amounts : List Int)
    (hpos : ∀ a ∈ amounts, 0 < a) (h0 : 0 ≤ o.paidAmount) (hne : amounts ≠ []) :
    paymentDerivationOk (o.applyPayments amounts) :=
  applyPayments_derivation o amounts hpos h0 hne

/-- Concrete order used by witnesses: one line item of 10 units at price
200, totals 2000, nothing paid yet. -/
def sampleOrder : Order :=
  { orderNumber := "UP2024010001"
    status := "draft"
    items := [{ product := 1, productName := "School Shirt", quantity := 10,
                unitPrice := 200, totalPrice := 2000 }]
    subtotal := 2000
    tax := 0
    discount := 0
    shippingCost := 0
    totalAmount := 2000
    paidAmount := 0
    paymentStatus := "pending" }

/-- Witness for C7: paying 500 and then 1500 on the sample order yields a
state satisfying the derivation rule. -/
theorem claim7_payment_status_derivation_witness :
    0 ≤ sampleOrder.paidAmount ∧
    paymentDerivationOk (sampleOrder.applyPayments [500, 1500]) :=
  ⟨by decide,
   claim7_payment_status_derivation sampleOrder [500, 1500]
     (by decide) (by decide) (by decide)⟩

theorem foldl_add_totalPrice (l : List OrderItem) (init : Int) :
    l.foldl (fun s it => s + it.totalPrice) init =
      init + (l.map OrderItem.totalPrice).sum := by
  induction l generalizing init with
  | nil => simp
  | cons it rest ih => simp [List.foldl_cons, ih, add_assoc]

theorem calculateTotals_subtotal (o : Order) :
    (o.calculateTotals).subtotal =
      ((o.calculateTotals).items.map OrderItem.totalPrice).sum := by
  have h : (o.calculateTotals).items = o.items := rfl
  rw [h]
  show o.items.foldl (fun s it => s + it.totalPrice) 0 =
    (o.items.map OrderItem.totalPrice).sum
  rw [foldl_add_totalPrice]
  simp

/-- C6: after calculateTotals, and in particular after addItem (which
appends an item whose totalPrice is quantity times unitPrice and then
recomputes), the subtotal equals the sum of the line item totals and
totalAmount equals subtotal + tax + shippingCost - discount. -/
theorem claim6_order_total_invariant (o : Order) (d : OrderItemInput) :
    (o.calculateTotals).subtotal =
        ((o.calculateTotals).items.map OrderItem.totalPrice).sum ∧
    (o.calculateTotals).totalAmount =
        (o.calculateTotals).subtotal + (o.calculateTotals).tax +
          (o.calculateTotals).shippingCost - (o.calculateTotals).discount ∧
    (o.addItem d).items =
        o.items ++ [{ product := d.product, productName := d.productName,
                      quantity := d.quantity, unitPrice := d.unitPrice,
                      totalPrice := d.quantity * d.unitPrice }] ∧
    (o.addItem d).subtotal = ((o.addItem d).items.map OrderItem.totalPrice).sum ∧
    (o.addItem d).totalAmount =
        (o.addItem d).subtotal + (o.addItem d).tax + (o.addItem d).shippingCost -
          (o.addItem d).discount := by
  refine ⟨calculateTotals_subtotal o, rfl, rfl, ?_, rfl⟩
  exact calculateTotals_subtotal
    { o with
      items := o.items ++
        [{ product := d.product
           productName := d.productName
           quantity := d.quantity
           unitPrice := d.unitPrice
           totalPrice := d.quantity * d.unitPrice }] }

/-- Conversion tracking subdocument of an Inquiry (src/models/Inquiry.js
lines 153-164). -/
structure ConvertedTo where
  order : Option Nat
  customer : Option Nat
  conversionDate : Option Nat
  conversionValue : Option Int
deriving DecidableEq

/-- Note entry on an Inquiry (src/models/Inquiry.js lines 167-178). -/
structure InquiryNote where
  content : String
  createdBy : Nat
  createdAt : Nat
  isInternal : Bool
deriving DecidableEq

/-- Communication entry on an Inquiry (src/models/Inquiry.js lines
113-134).  The schema field named type is called commType here. -/
structure Communication where
  commType : String
  subject : Option String
  content : String
  direction : String
  date : Nat
  outcome : Option String
  nextAction : Option String
  createdBy : Nat
deriving DecidableEq

/-- Data handed to Inquiry.addCommunication by its callers: the commData
object without the date and createdBy fields, which addCommunication
fills in. -/
structure CommunicationInput where
  commType : String
  subject : Option String
  content : String
  direction : String
  outcome : Option String
  nextAction : Option String
deriving DecidableEq

/-- Inquiry document, restricted to the fields the claims touch
(src/models/Inquiry.js lines 3-197).  requirementsDescription stands for
requirements.description. -/
structure Inquiry where
  inquiryNumber : String
  status : String
  customerName : String
  email : String
  phone : Option String
  company : Option String
  address : Address
  businessType : String
  industry : Option String
  employeeCount : Option Nat
  uniformType : String
  requirementsDescription : Option String
  source : String
  assignedTo : Option Nat
  convertedTo : ConvertedTo
  notes : List InquiryNote
  communications : List Communication
  lastContact : Option Nat
  firstResponseTime : Option Nat
  resolutionTime : Option Nat
deriving DecidableEq

/-- Embeds inquirySchema.methods.addNote (src/models/Inquiry.js lines
244-252). -/
def Inquiry.addNote (i : Inquiry) (content : String) (userId : Nat)
    (isInternal : Bool) (now : Nat) : Inquiry :=
  { i with notes := i.notes ++
      [{ content := content, createdBy := userId, createdAt := now,
         isInternal := isInternal }] }

/-- Embeds inquirySchema.methods.addCommunication (src/models/Inquiry.js
lines 225-241): pushes the communication stamped with the current date
and author, refreshes lastContact, and sets firstResponseTime on the
first outbound communication. -/
def Inquiry.addCommunication (i : Inquiry) (cd : CommunicationInput)
    (userId : Nat) (now : Nat) : Inquiry :=
  { i with
    communications := i.communications ++
      [{ commType := cd.commType, subject := cd.subject, content := cd.content,
         direction := cd.direction, date := now, outcome := cd.outcome,
         nextAction := cd.nextAction, createdBy := userId }]
    lastContact := some now
    firstResponseTime :=
      if cd.direction = "outbound" && !i.firstResponseTime.isSome then some now
      else i.firstResponseTime }

/-- Embeds inquirySchema.methods.updateStatus (src/models/Inquiry.js lines
255-270): sets the status; when the new status is converted and
convertedTo.conversionDate is still unset, stamps conversionDate and
resolutionTime; when a nonempty notes string is given, appends an
internal note about the change.  The customer link inside convertedTo is
never written. -/
def Inquiry.updateStatus (i : Inquiry) (newStatus : String) (userId : Nat)
    (notes : String) (now : Nat) : Inquiry :=
  let i1 := { i with status := newStatus }
  let i2 :=
    if newStatus = "converted" && !i1.convertedTo.conversionDate.isSome then
      { i1 with
        convertedTo := { i1.convertedTo with conversionDate := some now }
        resolutionTime := some now }
    else i1
  if notes ≠ "" then
    i2.addNote ("Status changed to " ++ newStatus ++ ": " ++ notes) userId true now
  else i2

/-- Embeds inquirySchema.methods.convertToCustomer (src/models/Inquiry.js
lines 292-302): sets the status to converted, overwrites the whole
convertedTo subdocument, and stamps resolutionTime. -/
def Inquiry.convertToCustomer (i : Inquiry) (customerId : Nat)
    (orderId : Option Nat) (conversionValue : Int) (now : Nat) : Inquiry :=
  { i with
    status := "converted"
    convertedTo :=
      { customer := some customerId, order := orderId,
        conversionDate := some now, conversionValue := some conversionValue }
    resolutionTime := some now }

/-- Note entry on a Customer (src/unnamed/part_000 lines 88-98); it has no
isInternal flag. -/
structure CustomerNote where
  content : String
  createdBy : Nat
  createdAt : Nat
deriving DecidableEq

/-- Customer document, restricted to the fields the claims touch
(src/unnamed/part_000 lines 3-147). -/
structure Customer where
  id : Nat
  name : String
  email : String
  phone : Option String
  company : Option String
  address : Address
  businessType : String
  industry : Option String
  employeeCount : Option Nat
  status : String
  source : String
  assignedTo : Option Nat
  lastContact : Option Nat
  notes : List CustomerNote
  tags : List String
deriving DecidableEq

/-- Embeds customerSchema.methods.addNote (src/unnamed/part_000 lines
169-176). -/
def Customer.addNote (c : Customer) (content : String) (userId : Nat)
    (now : Nat) : Customer :=
  { c with notes := c.notes ++
      [{ content := content, createdBy := userId, createdAt := now }] }

/-- The businessType enum, identical on customerSchema (src/unnamed/part_000
lines 38-42) and inquirySchema (src/models/Inquiry.js lines 55-59). -/
def businessTypeEnum : List String :=
  ["school", "college", "hotel", "hospital", "corporate", "industrial",
   "individual", "other"]

/-- The customerSchema status enum (src/unnamed/part_000 lines 65-69). -/
def customerStatusEnum : List String :=
  ["prospect", "active", "inactive", "lead"]

/-- The customerSchema source enum (src/unnamed/part_000 lines 70-74).
It lacks the phone, email and walk-in values of the inquiry enum. -/
def customerSourceEnum : List String :=
  ["website", "referral", "cold-call", "social-media", "advertisement", "other"]

/-- The inquirySchema source enum (src/models/Inquiry.js lines 104-108). -/
def inquirySourceEnum : List String :=
  ["website", "phone", "email", "walk-in", "referral", "social-media",
   "advertisement", "other"]

/-- The schema validation mongoose runs when a Customer document is saved,
restricted to the constraints that can fire on the conversion paths:
required nonempty name and email, enum membership of businessType, status
and source, and the min 1 bound on employeeCount. -/
def Customer.saveValid (c : Customer) : Bool :=
  decide (c.name ≠ "") && decide (c.email ≠ "") &&
  decide (c.businessType ∈ businessTypeEnum) &&
  decide (c.status ∈ customerStatusEnum) &&
  decide (c.source ∈ customerSourceEnum) &&
  (match c.employeeCount with
   | none => true
   | some n => decide (1 ≤ n))

/-- Body of a convert-to-customer request (src/unnamed/part_003 lines
516-532): optional free-text note, optional assignee, and the requested
customer status with the route default prospect already applied. -/
structure ConvertRequest where
  additionalNotes : Option String
  assignTo : Option Nat
  customerStatus : String
deriving DecidableEq

/-- The note text recorded on an existing Customer during a merge
conversion (src/unnamed/part_003 line 587). -/
def mergeConversionNote (inq : Inquiry) (additionalNotes : Option String) : String :=
  "Converted from inquiry " ++ inq.inquiryNumber ++
    (if truthyStr additionalNotes then ": " ++ additionalNotes.getD "" else "")

/-- Embeds the existing-customer merge branch of the conversion route
(src/unnamed/part_003 lines 558-590).  The source performs a sequence of
conditional assignments whose conditions each read only the field being
assigned, so the sequence is written here as one record update:
company, phone, industry, employeeCount and each address subfield are
copied only when the inquiry value is truthy and the customer value is
falsy, while businessType is copied whenever the inquiry value is truthy,
with no emptiness check on the customer side.  The requested assignee,
status and lastContact are then set and the conversion note appended. -/
def mergeInquiryIntoCustomer (inq : Inquiry) (c : Customer)
    (req : ConvertRequest) (userId : Nat) (now : Nat) : Customer :=
  Customer.addNote
    { c with
      company :=
        if truthyStr inq.company && !truthyStr c.company then inq.company
        else c.company
      phone :=
        if truthyStr inq.phone && !truthyStr c.phone then inq.phone
        else c.phone
      businessType :=
        if inq.businessType ≠ "" then inq.businessType else c.businessType
      industry :=
        if truthyStr inq.industry && !truthyStr c.industry then inq.industry
        else c.industry
      employeeCount :=
        if truthyNat inq.employeeCount && !truthyNat c.employeeCount then
          inq.employeeCount
        else c.employeeCount
      address :=
        { street :=
            if truthyStr inq.address.street && !truthyStr c.address.street then
              inq.address.street
            else c.address.street
          city :=
            if truthyStr inq.address.city && !truthyStr c.address.city then
              inq.address.city
            else c.address.city
          state :=
            if truthyStr inq.address.state && !truthyStr c.address.state then
              inq.address.state
            else c.address.state
          pincode :=
            if truthyStr inq.address.pincode && !truthyStr c.address.pincode then
              inq.address.pincode
            else c.address.pincode
          country :=
            if truthyStr inq.address.country && !truthyStr c.address.country then
              inq.address.country
            else c.address.country }
      assignedTo :=
        match req.assignTo with
        | some u => some u
        | none => c.assignedTo
      status := req.customerStatus
      lastContact := some now }
    (mergeConversionNote inq req.additionalNotes) userId now

/-- The initial note recorded on a newly created Customer
(src/unnamed/part_003 line 616). -/
def newCustomerNote (inq : Inquiry) (additionalNotes : Option String) : String :=
  "Customer created from inquiry " ++ inq.inquiryNumber ++
    ". Original requirements: " ++
    (if truthyStr inq.requirementsDescription then
       inq.requirementsDescription.getD ""
     else "No specific requirements noted") ++
    (if truthyStr additionalNotes then
       ". Additional notes: " ++ additionalNotes.getD ""
     else "")

/-- Embeds the customerData object of the new-customer branch of the
conversion route (src/unnamed/part_003 lines 596-610): every field is
seeded from the Inquiry, with empty-string fallbacks for phone, company
and industry, the route default website for source, and the assignee
falling back from the requested one to the inquiry assignee to the acting
user. -/
def newCustomerFromInquiry (inq : Inquiry) (req : ConvertRequest)
    (userId : Nat) (now : Nat) (newId : Nat) : Customer :=
  { id := newId
    name := inq.customerName
    email := inq.email
    phone := some (inq.phone.getD "")
    company := some (inq.company.getD "")
    address := inq.address
    businessType := inq.businessType
    industry := some (inq.industry.getD "")
    employeeCount := if truthyNat inq.employeeCount then inq.employeeCount else none
    status := req.customerStatus
    source := if inq.source ≠ "" then inq.source else "website"
    assignedTo := some (req.assignTo.getD (inq.assignedTo.getD userId))
    lastContact := some now
    notes := []
    tags := ["converted-from-" ++ inq.uniformType, "inquiry-conversion"] }

/-- The communication record appended to the Inquiry after a conversion
(src/unnamed/part_003 lines 624-631). -/
def conversionCommunication (customerId : Nat) (isNewCustomer : Bool) :
    CommunicationInput :=
  { commType := "other"
    subject := some "Converted to Customer"
    content :=
      "Inquiry converted to " ++ (if isNewCustomer then "new" else "existing") ++
        " customer record. Customer ID: " ++ toString customerId
    direction := "outbound"
    outcome := some "Converted to customer"
    nextAction := some "Follow up on customer requirements" }

/-- Failure modes of the conversion route: missing inquiry (HTTP 404), the
already-converted guard (HTTP 400), and a mongoose ValidationError thrown
by a Customer save, which the catch block surfaces as HTTP 500. -/
inductive ConvertError
  | notFound
  | alreadyConverted
  | saveFailed
deriving DecidableEq

/-- Successful result of the conversion route: the new or merged Customer,
the isNewCustomer flag, and the stamped Inquiry. -/
structure ConvertOutcome where
  customer : Customer
  isNewCustomer : Bool
  inquiry : Inquiry
deriving DecidableEq

/-- Embeds POST /api/inquiries/:id/convert-to-customer (src/unnamed/part_003
lines 513-656).  The inquiry argument is the findById result and the
existing argument is the result of the Customer findOne on the inquiry
email; newId is the ObjectId minted for a freshly created Customer.
Steps, as in the source: reject when the inquiry is missing; reject when
its status is converted and convertedTo.customer is set; merge into the
existing customer or build a new one, either path saving the Customer
(modelled by the saveValid check); then stamp the inquiry through
convertToCustomer with no order id and value 0 and append the conversion
communication. -/
def convertInquiryToCustomer (inquiry : Option Inquiry)
    (existing : Option Customer) (req : ConvertRequest) (userId : Nat)
    (now : Nat) (newId : Nat) : Except ConvertError ConvertOutcome :=
  match inquiry with
  | none => .error .notFound
  | some inq =>
    if inq.status = "converted" ∧ truthyId inq.convertedTo.customer = true then
      .error .alreadyConverted
    else
      match existing with
      | some c =>
        let merged := mergeInquiryIntoCustomer inq c req userId now
        if merged.saveValid then
          let inq1 := inq.convertToCustomer merged.id none 0 now
          let inq2 := inq1.addCommunication
            (conversionCommunication merged.id false) userId now
          .ok { customer := merged, isNewCustomer := false, inquiry := inq2 }
        else .error .saveFailed
      | none =>
        let c := newCustomerFromInquiry inq req userId now newId
        if c.saveValid then
          let c1 := c.addNote (newCustomerNote inq req.additionalNotes) userId now
          let inq1 := inq.convertToCustomer c.id none 0 now
          let inq2 := inq1.addCommunication
            (conversionCommunication c.id true) userId now
          .ok { customer := c1, isNewCustomer := true, inquiry := inq2 }
        else .error .saveFailed

/-- Outcome of a delete route: missing document (HTTP 404), business-rule
rejection (HTTP 400), or successful removal. -/
inductive DeleteOutcome
  | notFound
  | conflict
  | deleted
deriving DecidableEq

/-- Embeds DELETE /api/inquiries/:id (src/unnamed/part_003 lines 658-694):
the inquiry is removed unless it is missing, or its status is converted
and its convertedTo.customer is set. -/
def deleteInquiryRoute (inquiry : Option Inquiry) : DeleteOutcome :=
  match inquiry with
  | none => .notFound
  | some inq =>
    if inq.status = "converted" ∧ truthyId inq.convertedTo.customer = true then
      .conflict
    else .deleted

/-- One pass of the stock-restoring loop of the order delete route: the
product referenced by the line item, when present in the store, gets its
stock increased by the item quantity.  Product ids are unique document
keys, so the map touches at most one element. -/
def restockStep (ps : List Product) (it : OrderItem) : List Product :=
  ps.map (fun p => if p.id == it.product then p.updateStock it.quantity "increase" else p)

/-- The stock-restoring loop of DELETE /api/orders/:id (src/unnamed/part_003
lines 1099-1105), one restockStep per line item. -/
def restoreOrderStock (items : List OrderItem) (ps : List Product) : List Product :=
  items.foldl restockStep ps

/-- Embeds DELETE /api/orders/:id (src/unnamed/part_003 lines 1077-1121):
a missing order is 404, a non-draft order is rejected with nothing
changed, and deleting a draft order restores the stock of every product
referenced by its line items.  The product store is threaded explicitly. -/
def deleteOrderRoute (order : Option Order) (ps : List Product) :
    DeleteOutcome × List Product :=
  match order with
  | none => (.notFound, ps)
  | some o =>
    if o.status ≠ "draft" then (.conflict, ps)
    else (.deleted, restoreOrderStock o.items ps)

/-- Calendar position of a timestamp: the year and the one-based month.
The generator counts documents whose inquiryDate lies in the half-open
interval from the first of the current month to the first of the next
month, which is exactly the set of dates with the same year and month, so
days and finer granularity are irrelevant to the count and are dropped. -/
structure CalDate where
  year : Nat
  month : Nat
deriving DecidableEq

/-- The JavaScript String.prototype.padStart: left-pads with the fill
character up to the width, returning the string unchanged when it is
already long enough. -/
def padStart (s : String) (width : Nat) (c : Char) : String :=
  if width ≤ s.length then s
  else String.mk (List.replicate (width - s.length) c) ++ s

/-- The countDocuments query of the generator: inquiries whose date falls
in the current calendar month (src/models/Inquiry.js lines 310-315). -/
def countInquiriesInMonth (store : List CalDate) (d : CalDate) : Nat :=
  (store.filter (fun x => x.year == d.year && x.month == d.month)).length

/-- Embeds inquirySchema.statics.generateInquiryNumber
(src/models/Inquiry.js lines 305-318): INQ, then the year, then the
two-digit zero-padded month, then count-of-this-month plus one zero-padded
to four digits. -/
def generateInquiryNumber (store : List CalDate) (today : CalDate) : String :=
  "INQ" ++ toString today.year ++ padStart (toString today.month) 2 '0' ++
    padStart (toString (countInquiriesInMonth store today + 1)) 4 '0'

/-- Persisting one submitted inquiry: the POST /api/inquiries route saves
the new document with inquiryDate defaulted to now, so the store gains one
date entry. -/
def submitInquiryDate (store : List CalDate) (d : CalDate) : List CalDate :=
  store ++ [d]

/-- A sequence of non-concurrent inquiry submissions. -/
def submitAllDates (store : List CalDate) (ds : List CalDate) : List CalDate :=
  ds.foldl submitInquiryDate store

theorem submitAllDates_eq_append (store ds : List CalDate) :
    submitAllDates store ds = store ++ ds := by
  induction ds generalizing store with
  | nil => simp [submitAllDates]
  | cons d rest ih =>
      show submitAllDates (store ++ [d]) rest = store ++ (d :: rest)
      rw [ih]
      simp

theorem countInquiriesInMonth_append (store ds : List CalDate) (today : CalDate)
    (h : ∀ d ∈ ds, d.year = today.year ∧ d.month = today.month) :
    countInquiriesInMonth (store ++ ds) today =
      countInquiriesInMonth store today + ds.length := by
  unfold countInquiriesInMonth
  rw [List.filter_append, List.length_append]
  congr 1
  rw [List.filter_eq_self.mpr]
  intro d hd
  have := h d hd
  simp [this.1, this.2]

/-- C8: generating after any run of same-month submissions yields the INQ
marker, the year, the two-digit zero-padded month and the four-digit
zero-padded sequence value, where the sequence value is the prior count
of that month plus the number of submissions plus one; hence within one
calendar month each successive non-concurrent submission strictly
increases the numeric suffix of the next generated number. -/
theorem claim8_inquiry_number (store ds : List CalDate) (today : CalDate)
    (h : ∀ d ∈ ds, d.year = today.year ∧ d.month = today.month) :
    generateInquiryNumber (submitAllDates store ds) today =
      "INQ" ++ toString today.year ++ padStart (toString today.month) 2 '0' ++
        padStart (toString (countInquiriesInMonth store today + ds.length + 1)) 4 '0' ∧
    (ds ≠ [] →
      countInquiriesInMonth store today + 1 <
        countInquiriesInMonth (submitAllDates store ds) today + 1) := by
  have hc : countInquiriesInMonth (submitAllDates store ds) today =
      countInquiriesInMonth store today + ds.length := by
    rw [submitAllDates_eq_append]
    exact countInquiriesInMonth_append store ds today h
  constructor
  · unfold generateInquiryNumber
    rw [hc]
  · intro hne
    have : 0 < ds.length := List.length_pos.mpr hne
    omega

/-- Witness for C8: two submissions in January 2024 on a store already
holding one January 2024 inquiry move the next sequence value from 2 to
4. -/
theorem claim8_inquiry_number_witness :
    (∀ d ∈ [CalDate.mk 2024 1, CalDate.mk 2024 1],
        d.year = (CalDate.mk 2024 1).year ∧ d.month = (CalDate.mk 2024 1).month) ∧
    generateInquiryNumber
        (submitAllDates [CalDate.mk 2024 1] [CalDate.mk 2024 1, CalDate.mk 2024 1])
        (CalDate.mk 2024 1) =
      "INQ" ++ toString 2024 ++ padStart (toString 1) 2 '0' ++
        padStart (toString (countInquiriesInMonth [CalDate.mk 2024 1]
          (CalDate.mk 2024 1) + 2 + 1)) 4 '0' ∧
    countInquiriesInMonth [CalDate.mk 2024 1] (CalDate.mk 2024 1) + 1 <
      countInquiriesInMonth
        (submitAllDates [CalDate.mk 2024 1] [CalDate.mk 2024 1, CalDate.mk 2024 1])
        (CalDate.mk 2024 1) + 1 := by
  have h := claim8_inquiry_number [CalDate.mk 2024 1]
    [CalDate.mk 2024 1, CalDate.mk 2024 1] (CalDate.mk 2024 1) (by decide)
  exact ⟨by decide, h.1, h.2 (by decide)⟩

/-- C10: updateStatus with target status converted sets the status, leaves
the customer and order links inside convertedTo untouched, stamps
conversionDate and resolutionTime exactly when conversionDate was unset,
and leaves both untouched otherwise; the customer link is populated only
by convertToCustomer.  In particular an Inquiry whose customer link is
empty reaches status converted with the link still empty. -/
theorem claim10_updateStatus_never_links_customer (i : Inquiry) (userId : Nat)
    (notes : String) (now : Nat) :
    (i.updateStatus "converted" userId notes now).status = "converted" ∧
    (i.updateStatus "converted" userId notes now).convertedTo.customer =
      i.convertedTo.customer ∧
    (i.updateStatus "converted" userId notes now).convertedTo.order =
      i.convertedTo.order ∧
    (i.convertedTo.conversionDate = none →
      (i.updateStatus "converted" userId notes now).convertedTo.conversionDate =
          some now ∧
      (i.updateStatus "converted" userId notes now).resolutionTime = some now) ∧
    (i.convertedTo.conversionDate ≠ none →
      (i.updateStatus "converted" userId notes now).convertedTo.conversionDate =
          i.convertedTo.conversionDate ∧
      (i.updateStatus "converted" userId notes now).resolutionTime =
          i.resolutionTime) ∧
    (∀ customerId orderId value now2,
      (i.convertToCustomer customerId orderId value now2).convertedTo.customer =
        some customerId) := by
  cases hcd : i.convertedTo.conversionDate with
  | none =>
      by_cases hn : notes = "" <;>
        simp [Inquiry.updateStatus, Inquiry.addNote, Inquiry.convertToCustomer,
          hcd, hn]
  | some t =>
      by_cases hn : notes = "" <;>
        simp [Inquiry.updateStatus, Inquiry.addNote, Inquiry.convertToCustomer,
          hcd, hn]

/-- C1 (amended): in the existing-customer merge branch, company, phone,
industry, employeeCount and every address subfield are copied from the
Inquiry only when the Customer value is empty, and a populated Customer
value of those fields always survives; businessType however is copied
from the Inquiry unconditionally whenever the Inquiry carries one,
regardless of the Customer value. -/
theorem claim1_merge_semantics (inq : Inquiry) (c : Customer)
    (req : ConvertRequest) (userId now : Nat) :
    (truthyStr c.company = true →
      (mergeInquiryIntoCustomer inq c req userId now).company = c.company) ∧
    (truthyStr c.company = false →
      (mergeInquiryIntoCustomer inq c req userId now).company =
        if truthyStr inq.company then inq.company else c.company) ∧
    (truthyStr c.phone = true →
      (mergeInquiryIntoCustomer inq c req userId now).phone = c.phone) ∧
    (truthyStr c.phone = false →
      (mergeInquiryIntoCustomer inq c req userId now).phone =
        if truthyStr inq.phone then inq.phone else c.phone) ∧
    (truthyStr c.industry = true →
      (mergeInquiryIntoCustomer inq c req userId now).industry = c.industry) ∧
    (truthyStr c.industry = false →
      (mergeInquiryIntoCustomer inq c req userId now).industry =
        if truthyStr inq.industry then inq.industry else c.industry) ∧
    (truthyNat c.employeeCount = true →
      (mergeInquiryIntoCustomer inq c req userId now).employeeCount =
        c.employeeCount) ∧
    (truthyNat c.employeeCount = false →
      (mergeInquiryIntoCustomer inq c req userId now).employeeCount =
        if truthyNat inq.employeeCount then inq.employeeCount
        else c.employeeCount) ∧
    (truthyStr c.address.street = true →
      (mergeInquiryIntoCustomer inq c req userId now).address.street =
        c.address.street) ∧
    (truthyStr c.address.street = false →
      (mergeInquiryIntoCustomer inq c req userId now).address.street =
        if truthyStr inq.address.street then inq.address.street
        else c.address.street) ∧
    (truthyStr c.address.city = true →
      (mergeInquiryIntoCustomer inq c req userId now).address.city =
        c.address.city) ∧
    (truthyStr c.address.city = false →
      (mergeInquiryIntoCustomer inq c req userId now).address.city =
        if truthyStr inq.address.city then inq.address.city
        else c.address.city) ∧
    (truthyStr c.address.state = true →
      (mergeInquiryIntoCustomer inq c req userId now).address.state =
        c.address.state) ∧
    (truthyStr c.address.state = false →
      (mergeInquiryIntoCustomer inq c req userId now).address.state =
        if truthyStr inq.address.state then inq.address.state
        else c.address.state) ∧
    (truthyStr c.address.pincode = true →
      (mergeInquiryIntoCustomer inq c req userId now).address.pincode =
        c.address.pincode) ∧
    (truthyStr c.address.pincode = false →
      (mergeInquiryIntoCustomer inq c req userId now).address.pincode =
        if truthyStr inq.address.pincode then inq.address.pincode
        else c.address.pincode) ∧
    (truthyStr c.address.country = true →
      (mergeInquiryIntoCustomer inq c req userId now).address.country =
        c.address.country) ∧
    (truthyStr c.address.country = false →
      (mergeInquiryIntoCustomer inq c req userId now).address.country =
        if truthyStr inq.address.country then inq.address.country
        else c.address.country) ∧
    (inq.businessType ≠ "" →
      (mergeInquiryIntoCustomer inq c req userId now).businessType =
        inq.businessType) := by
  refine ⟨?_, ?_, ?_, ?_, ?_, ?_, ?_, ?_, ?_, ?_, ?_, ?_, ?_, ?_, ?_, ?_, ?_,
    ?_, ?_⟩ <;>
    intro h <;>
    simp [mergeInquiryIntoCustomer, Customer.addNote, h]

/-- Witness for C1 at a concrete inquiry and customer. -/
theorem claim1_merge_semantics_witness :
    truthyStr (some "Acme Corp") = true ∧
    (mergeInquiryIntoCustomer
        { inquiryNumber := "INQ2024010001", status := "new",
          customerName := "Acme School", email := "contact@acme.edu",
          phone := some "9990001111", company := some "Acme Trust",
          address := { street := some "12 Main Road", city := none, state := none,
                       pincode := none, country := some "India" },
          businessType := "school", industry := some "education",
          employeeCount := some 80, uniformType := "school",
          requirementsDescription := some "summer uniforms", source := "website",
          assignedTo := none,
          convertedTo := { order := none, customer := none, conversionDate := none,
                           conversionValue := none },
          notes := [], communications := [], lastContact := none,
          firstResponseTime := none, resolutionTime := none }
        { id := 5, name := "Acme", email := "contact@acme.edu", phone := none,
          company := some "Acme Corp",
          address := { street := none, city := none, state := none, pincode := none,
                       country := some "India" },
          businessType := "hotel", industry := none, employeeCount := none,
          status := "active", source := "website", assignedTo := some 2,
          lastContact := none, notes := [], tags := [] }
        { additionalNotes := none, assignTo := none, customerStatus := "active" }
        1 100).company = some "Acme Corp" := by
  constructor
  · decide
  · exact (claim1_merge_semantics _ _ _ 1 100).1 (by decide)

/-- Concrete inquiry and customer exhibiting the C1 failure: the customer
has a populated businessType (hotel) and the inquiry carries a different
one (school). -/
def hotelCustomer : Customer :=
  { id := 5
    name := "Grand Hotel"
    email := "contact@acme.edu"
    phone := some "5550001111"
    company := some "Grand Hospitality"
    address := { street := some "1 Palace Road", city := some "Jaipur",
                 state := some "Rajasthan", pincode := some "302001",
                 country := some "India" }
    businessType := "hotel"
    industry := some "hospitality"
    employeeCount := some 120
    status := "active"
    source := "referral"
    assignedTo := some 2
    lastContact := some 10
    notes := []
    tags := [] }

def schoolInquiry : Inquiry :=
  { inquiryNumber := "INQ2024010001"
    status := "new"
    customerName := "Acme School"
    email := "contact@acme.edu"
    phone := some "9990001111"
    company := some "Acme Trust"
    address := { street := some "12 Main Road", city := none, state := none,
                 pincode := none, country := some "India" }
    businessType := "school"
    industry := some "education"
    employeeCount := some 80
    uniformType := "school"
    requirementsDescription := some "summer uniforms"
    source := "website"
    assignedTo := none
    convertedTo := { order := none, customer := none, conversionDate := none,
                     conversionValue := none }
    notes := []
    communications := []
    lastContact := none
    firstResponseTime := none
    resolutionTime := none }

/-- Counterexample to C1 as stated: the populated businessType of the
matched Customer is overwritten by the Inquiry value during the merge. -/
theorem claim1_counterexample :
    hotelCustomer.businessType = "hotel" ∧
    hotelCustomer.businessType ≠ "" ∧
    (mergeInquiryIntoCustomer schoolInquiry hotelCustomer
        { additionalNotes := none, assignTo := none, customerStatus := "active" }
        1 100).businessType = "school" := by
  refine ⟨rfl, by decide, rfl⟩

/-- Witness for C10 at a concrete inquiry with an unset conversionDate:
updateStatus to converted leaves the customer link empty. -/
theorem claim10_updateStatus_never_links_customer_witness :
    ((schoolInquiry.updateStatus "converted" 1 "team call" 60).status =
        "converted") ∧
    (schoolInquiry.updateStatus "converted" 1 "team call" 60).convertedTo.customer
        = none := by
  have h := claim10_updateStatus_never_links_customer schoolInquiry 1
    "team call" 60
  exact ⟨h.1, h.2.1.trans rfl⟩

/-- C2 (amended): the already-converted guard fires exactly when the
Inquiry status is converted and convertedTo.customer is set; under those
two conditions a second conversion attempt fails before any write, so no
second Customer is created and convertedTo is untouched. -/
theorem claim2_already_converted_guard (inq : Inquiry)
    (existing : Option Customer) (req : ConvertRequest)
    (userId now newId : Nat)
    (h1 : inq.status = "converted")
    (h2 : truthyId inq.convertedTo.customer = true) :
    convertInquiryToCustomer (some inq) existing req userId now newId =
      .error .alreadyConverted := by
  simp [convertInquiryToCustomer, h1, h2]

/-- Inquiry converted through the conversion route: status converted and
customer link populated. -/
def convertedInquiry : Inquiry :=
  { schoolInquiry with
    status := "converted"
    convertedTo := { order := none, customer := some 5, conversionDate := some 50,
                     conversionValue := some 0 }
    resolutionTime := some 50 }

/-- Witness for C2 at a concrete converted inquiry. -/
theorem claim2_already_converted_guard_witness :
    convertedInquiry.status = "converted" ∧
    truthyId convertedInquiry.convertedTo.customer = true ∧
    convertInquiryToCustomer (some convertedInquiry) (some hotelCustomer)
        { additionalNotes := none, assignTo := none, customerStatus := "prospect" }
        1 200 9 = .error .alreadyConverted :=
  ⟨rfl, rfl, claim2_already_converted_guard _ _ _ 1 200 9 rfl rfl⟩

/-- Inquiry whose customer link is populated but whose status was later
moved away from converted, a state the PUT /api/inquiries/:id handler
reaches by writing any status value into the document. -/
def relapsedInquiry : Inquiry :=
  { schoolInquiry with
    status := "lost"
    convertedTo := { order := none, customer := some 5, conversionDate := some 50,
                     conversionValue := some 0 }
    resolutionTime := some 50 }

/-- Projection used by the C2 counterexample: the conversionDate the route
left on the inquiry, or none when the route failed. -/
def convertResultConversionDate :
    Except ConvertError ConvertOutcome → Option (Option Nat)
  | .ok out => some out.inquiry.convertedTo.conversionDate
  | .error _ => none

/-- Counterexample to C2 as stated: an Inquiry with a non-empty
convertedTo.customer but status lost is converted again without any
ConflictError, and its convertedTo.conversionDate is overwritten from 50
to the new time 200. -/
theorem claim2_counterexample :
    truthyId relapsedInquiry.convertedTo.customer = true ∧
    relapsedInquiry.convertedTo.conversionDate = some 50 ∧
    convertResultConversionDate
        (convertInquiryToCustomer (some relapsedInquiry) (some hotelCustomer)
          { additionalNotes := none, assignTo := none,
            customerStatus := "prospect" }
          1 200 9) = some (some 200) := by
  refine ⟨rfl, rfl, ?_⟩
  decide

/-- C3 (amended): the delete route rejects an Inquiry exactly when its
status is converted and its convertedTo.customer is set; under those two
conditions the record is not removed. -/
theorem claim3_delete_converted_guard (inq : Inquiry)
    (h1 : inq.status = "converted")
    (h2 : truthyId inq.convertedTo.customer = true) :
    deleteInquiryRoute (some inq) = .conflict := by
  simp [deleteInquiryRoute, h1, h2]

/-- Witness for C3 at a concrete converted and linked inquiry. -/
theorem claim3_delete_converted_guard_witness :
    convertedInquiry.status = "converted" ∧
    truthyId convertedInquiry.convertedTo.customer = true ∧
    deleteInquiryRoute (some convertedInquiry) = .conflict :=
  ⟨rfl, rfl, claim3_delete_converted_guard _ rfl rfl⟩

/-- Counterexample to C3 as stated: an Inquiry that reached status
converted through updateStatus alone has no customer link, and the delete
route removes it instead of rejecting. -/
theorem claim3_counterexample :
    (schoolInquiry.updateStatus "converted" 1 "" 60).status = "converted" ∧
    (schoolInquiry.updateStatus "converted" 1 "" 60).convertedTo.customer =
      none ∧
    deleteInquiryRoute (some (schoolInquiry.updateStatus "converted" 1 "" 60)) =
      .deleted := by
  refine ⟨?_, ?_, ?_⟩ <;> decide

/-- Total quantity the order delete route restores to the product with the
given id: the sum of the quantities of the line items referencing it. -/
def restockAmount (pid : Nat) (items : List OrderItem) : Int :=
  ((items.filter (fun it => pid == it.product)).map OrderItem.quantity).sum

/-- A product after the order delete route: stock increased by the total
quantity of the line items referencing it, all other fields unchanged. -/
def addRestock (items : List OrderItem) (p : Product) : Product :=
  { p with stockQuantity := p.stockQuantity + restockAmount p.id items }

theorem restockAmount_cons (pid : Nat) (it : OrderItem)
    (rest : List OrderItem) :
    restockAmount pid (it :: rest) =
      (if pid == it.product then it.quantity else 0) + restockAmount pid rest := by
  unfold restockAmount
  cases h : (pid == it.product) with
  | true => simp [List.filter_cons, h]
  | false => simp [List.filter_cons, h]

theorem restoreOrderStock_eq_map (items : List OrderItem) (ps : List Product) :
    restoreOrderStock items ps = ps.map (addRestock items) := by
  induction items generalizing ps with
  | nil =>
      have h : addRestock ([] : List OrderItem) = id := by
        funext p
        cases p
        simp [addRestock, restockAmount, id]
      show ps = ps.map (addRestock [])
      rw [h, List.map_id]
  | cons it rest ih =>
      show restoreOrderStock rest (restockStep ps it) =
        ps.map (addRestock (it :: rest))
      rw [ih, restockStep, List.map_map]
      have hfun : addRestock rest ∘
          (fun p => if p.id == it.product then
            p.updateStock it.quantity "increase" else p) =
          addRestock (it :: rest) := by
        funext p
        cases h : (p.id == it.product) with
        | true =>
            cases p with
            | mk pid pcode pstock =>
                have hp : pid = it.product := by simpa using h
                simp [Function.comp, addRestock, Product.updateStock,
                  restockAmount_cons, hp, add_assoc]
        | false =>
            cases p with
            | mk pid pcode pstock =>
                simp [Function.comp, h, addRestock, restockAmount_cons]
      rw [hfun]

/-- C4: a non-draft order is rejected by the delete route with the product
store untouched; deleting a draft order succeeds and replaces the store by
the pointwise restock map, increasing each stored product stock by the
total quantity of the deleted order line items that reference it. -/
theorem claim4_draft_only_deletion (o : Order) (ps : List Product) :
    (o.status ≠ "draft" →
      deleteOrderRoute (some o) ps = (DeleteOutcome.conflict, ps)) ∧
    (o.status = "draft" →
      deleteOrderRoute (some o) ps =
        (DeleteOutcome.deleted, ps.map (addRestock o.items))) := by
  constructor
  · intro h
    simp [deleteOrderRoute, h]
  · intro h
    simp [deleteOrderRoute, h, restoreOrderStock_eq_map]

/-- Concrete store for the C4 witness. -/
def demoProducts : List Product :=
  [{ id := 1, code := "UNI-001", stockQuantity := 40 },
   { id := 2, code := "UNI-002", stockQuantity := 5 }]

/-- Witness for C4: deleting the sample draft order (one line of 10 units
of product 1) raises the stock of product 1 from 40 to 50 and leaves
product 2 alone, while a confirmed copy of the order is rejected with the
store untouched. -/
theorem claim4_draft_only_deletion_witness :
    sampleOrder.status = "draft" ∧
    deleteOrderRoute (some sampleOrder) demoProducts =
      (DeleteOutcome.deleted,
       [{ id := 1, code := "UNI-001", stockQuantity := 50 },
        { id := 2, code := "UNI-002", stockQuantity := 5 }]) ∧
    ({ sampleOrder with status := "confirmed" } : Order).status ≠ "draft" ∧
    deleteOrderRoute (some { sampleOrder with status := "confirmed" })
        demoProducts = (DeleteOutcome.conflict, demoProducts) := by
  refine ⟨rfl, ?_, by decide, ?_⟩
  · have h := (claim4_draft_only_deletion sampleOrder demoProducts).2 rfl
    rw [h]
    decide
  · exact (claim4_draft_only_deletion
      { sampleOrder with status := "confirmed" } demoProducts).1 (by decide)

/-- C9 (amended): when no Customer matches the Inquiry email and the
seeded document passes Customer schema validation, in particular when the
inquiry source value (defaulted to website when empty) lies in the
narrower Customer source enum, the conversion creates a new Customer
seeded from the Inquiry with the requested status and the
requested-assignee / inquiry-assignee / acting-user fallback, marks the
result new, and links the Inquiry to the fresh Customer id. -/
theorem claim9_new_customer_seeding (inq : Inquiry) (req : ConvertRequest)
    (userId now newId : Nat)
    (hguard : ¬ (inq.status = "converted" ∧
      truthyId inq.convertedTo.customer = true))
    (hname : inq.customerName ≠ "") (hemail : inq.email ≠ "")
    (hbt : inq.businessType ∈ businessTypeEnum)
    (hst : req.customerStatus ∈ customerStatusEnum)
    (hsrc : (if inq.source ≠ "" then inq.source else "website") ∈
      customerSourceEnum) :
    ∃ out, convertInquiryToCustomer (some inq) none req userId now newId =
        .ok out ∧
      out.isNewCustomer = true ∧
      out.customer.name = inq.customerName ∧
      out.customer.email = inq.email ∧
      out.customer.phone = some (inq.phone.getD "") ∧
      out.customer.company = some (inq.company.getD "") ∧
      out.customer.businessType = inq.businessType ∧
      out.customer.industry = some (inq.industry.getD "") ∧
      out.customer.employeeCount =
        (if truthyNat inq.employeeCount then inq.employeeCount else none) ∧
      out.customer.address = inq.address ∧
      out.customer.source =
        (if inq.source ≠ "" then inq.source else "website") ∧
      out.customer.status = req.customerStatus ∧
      out.customer.assignedTo =
        some (req.assignTo.getD (inq.assignedTo.getD userId)) ∧
      out.inquiry.status = "converted" ∧
      out.inquiry.convertedTo.customer = some newId := by
  have hec : (match (if truthyNat inq.employeeCount then inq.employeeCount
        else none) with
      | none => true
      | some n => decide (1 ≤ n)) = true := by
    cases he : inq.employeeCount with
    | none => simp [truthyNat, he]
    | some n =>
        by_cases hn : n = 0
        · simp [truthyNat, he, hn]
        · simp [truthyNat, he, hn]
          omega
  have hsrc2 : (if inq.source = "" then "website" else inq.source) ∈
      customerSourceEnum := by
    by_cases h : inq.source = ""
    · simpa [h] using hsrc
    · simpa [h] using hsrc
  have hvalid : (newCustomerFromInquiry inq req userId now newId).saveValid =
      true := by
    unfold Customer.saveValid
    simp [newCustomerFromInquiry, hname, hemail, hbt, hst, hsrc2, hec]
  refine ⟨{ customer := (newCustomerFromInquiry inq req userId now newId).addNote
              (newCustomerNote inq req.additionalNotes) userId now
            isNewCustomer := true
            inquiry := (inq.convertToCustomer newId none 0 now).addCommunication
              (conversionCommunication newId true) userId now },
    ?_, rfl, rfl, rfl, rfl, rfl, rfl, rfl, rfl, rfl, rfl, rfl, rfl, rfl, rfl⟩
  simp only [convertInquiryToCustomer]
  rw [if_neg hguard, hvalid]
  rfl

/-- Shared convert-request value with the route defaults. -/
def demoRequest : ConvertRequest :=
  { additionalNotes := none, assignTo := none, customerStatus := "prospect" }

/-- Witness for C9 at the concrete school inquiry. -/
theorem claim9_new_customer_seeding_witness :
    schoolInquiry.customerName ≠ "" ∧
    (∃ out, convertInquiryToCustomer (some schoolInquiry) none demoRequest
        1 100 7 = .ok out ∧
      out.isNewCustomer = true ∧
      out.customer.name = schoolInquiry.customerName ∧
      out.customer.email = schoolInquiry.email ∧
      out.customer.phone = some (schoolInquiry.phone.getD "") ∧
      out.customer.company = some (schoolInquiry.company.getD "") ∧
      out.customer.businessType = schoolInquiry.businessType ∧
      out.customer.industry = some (schoolInquiry.industry.getD "") ∧
      out.customer.employeeCount =
        (if truthyNat schoolInquiry.employeeCount then
          schoolInquiry.employeeCount else none) ∧
      out.customer.address = schoolInquiry.address ∧
      out.customer.source =
        (if schoolInquiry.source ≠ "" then schoolInquiry.source
         else "website") ∧
      out.customer.status = demoRequest.customerStatus ∧
      out.customer.assignedTo =
        some (demoRequest.assignTo.getD (schoolInquiry.assignedTo.getD 1)) ∧
      out.inquiry.status = "converted" ∧
      out.inquiry.convertedTo.customer = some 7) :=
  ⟨by decide,
   claim9_new_customer_seeding schoolInquiry demoRequest 1 100 7
     (by decide) (by decide) (by decide) (by decide) (by decide) (by decide)⟩

/-- Inquiry submitted over the phone: source phone is legal on the inquiry
schema. -/
def phoneInquiry : Inquiry :=
  { schoolInquiry with email := "phone-lead@example.com", source := "phone" }

/-- Recognizer for the save-validation failure of the conversion route. -/
def convertResultIsSaveFailed : Except ConvertError ConvertOutcome → Bool
  | .error .saveFailed => true
  | _ => false

/-- Counterexample to C9 as stated: converting an otherwise fully valid
Inquiry whose source is phone fails, because the Customer source enum has
no phone value and the seeded document does not validate, so no Customer
is created. -/
theorem claim9_counterexample :
    phoneInquiry.source ∈ inquirySourceEnum ∧
    convertResultIsSaveFailed
      (convertInquiryToCustomer (some phoneInquiry) none demoRequest 1 100 7) =
      true := by
  refine ⟨by decide, by decide⟩

end UniformPalace
